import Mathlib

/-!
Shallow embedding of the myweather city-search / weather-fetch workflow
(src/services/api.js, src/components/SearchCity.jsx, src/components/Main.jsx,
src/components/CallWeather.jsx, and the premium CallWeather variant).

JavaScript values that the code inspects dynamically are modelled by the
type MyWeather.Json below; JS numbers are modelled as rationals (the
properties under study never exercise float-specific behaviour such as NaN
propagation or scientific-notation stringification). Network interaction is
made explicit: each client function takes the outcome the network would
deliver for its one outbound request, and returns both the list of requests
it actually issued and its result. Errors thrown inside a try block are
modelled as the value its catch clause returns, so each model is a total
function: totality is the shallow form of "no uncaught error escapes".
-/

namespace MyWeather

/-- A JavaScript value as the repository code observes it: the JSON values
plus undefined (the result of reading an absent property). Numbers are
rationals. -/
inductive Json where
  | undefined
  | null
  | bool (b : Bool)
  | num (q : ℚ)
  | str (s : String)
  | arr (elems : List Json)
  | obj (fields : List (String × Json))

/-- Property lookup inside the field list of an object; an absent key gives
undefined. -/
def lookupField : List (String × Json) → String → Json
  | [], _ => .undefined
  | (k, v) :: rest, key => if k = key then v else lookupField rest key

/-- JS property access v.key: a field of an object, undefined otherwise. -/
def Json.get : Json → String → Json
  | .obj fields, key => lookupField fields key
  | _, _ => .undefined

/-- JS index access v[i] on an array; undefined past the end or on
non-arrays. -/
def Json.idx : Json → Nat → Json
  | .arr elems, i => elems.getD i .undefined
  | _, _ => .undefined

/-- JS truthiness. (NaN, which is also falsy, lies outside the rational
model of numbers.) -/
def Json.truthy : Json → Bool
  | .undefined => false
  | .null => false
  | .bool b => b
  | .num q => q != 0
  | .str s => s != ""
  | .arr _ => true
  | .obj _ => true

/-- The JS test typeof v === "number". -/
def Json.isNum : Json → Bool
  | .num _ => true
  | _ => false

/-- The JS test typeof v === "string". -/
def Json.isStr : Json → Bool
  | .str _ => true
  | _ => false

/-- String payload of a value; only consulted after an isStr check. -/
def Json.strVal : Json → String
  | .str s => s
  | _ => ""

/-- Numeric payload of a value; only consulted after an isNum check. -/
def Json.numVal : Json → ℚ
  | .num q => q
  | _ => 0

/-- The method String.prototype.trim: strip whitespace from both ends. -/
def jsTrim (s : String) : String :=
  String.mk (((s.toList.dropWhile Char.isWhitespace).reverse.dropWhile
    Char.isWhitespace).reverse)

/-- The method String.prototype.includes: substring containment. -/
def jsIncludes (s pat : String) : Bool := decide (pat.toList <:+: s.toList)

/-- One HTTP response as fetch resolves it: a status code and a body that
either parses as JSON (some) or makes response.json() throw (none). -/
structure FetchResponse where
  status : Nat
  body : Option Json

/-- The field response.ok: status in the 2xx range, that is in [200, 300). -/
def respOk (r : FetchResponse) : Bool := 200 ≤ r.status && r.status < 300

/-- What the network does to one outbound request: deliver a response, or
reject the fetch promise (transport failure). -/
inductive FetchOutcome where
  | response (r : FetchResponse)
  | networkError

/-- The constant DEFAULT_SEARCH_LIMIT of api.js (line 56). -/
def DEFAULT_SEARCH_LIMIT : Int := 5

/-- Truncation toward zero: the effect of parseInt on an ordinary finite
number. -/
def ratTrunc (q : ℚ) : Int := if 0 ≤ q then ⌊q⌋ else ⌈q⌉

/-- Leading decimal digits of a character list, none when there are none. -/
def leadingDigits (cs : List Char) : Option Nat :=
  match cs.takeWhile Char.isDigit with
  | [] => none
  | ds => some (ds.foldl (fun acc c => acc * 10 + (c.toNat - Char.toNat '0')) 0)

/-- The function parseInt on a string: after leading whitespace, an optional
sign then leading digits; none models NaN. (The hexadecimal 0x form is not
modelled; no claim depends on it.) -/
def parseIntString (s : String) : Option Int :=
  match s.toList.dropWhile Char.isWhitespace with
  | '-' :: rest => (leadingDigits rest).map (fun n => -(n : Int))
  | '+' :: rest => (leadingDigits rest).map (fun n => (n : Int))
  | cs => (leadingDigits cs).map (fun n => (n : Int))

/-- The function parseInt on a JS value: numbers truncate toward zero,
strings are parsed, and the remaining values stringify to something
non-numeric, giving NaN (none). Stringification corner cases (scientific
notation, single-element arrays) are not modelled; the clamping claim is
insensitive to them because the clamp lands in [1,5] for every possible
parseInt outcome (theorem clampLimit_mem below). -/
def parseIntJs : Json → Option Int
  | .num q => some (ratTrunc q)
  | .str s => parseIntString s
  | _ => none

/-- The JS expression x || d for x a parseInt result: NaN (none) and 0 are
falsy, so both fall back to the default. -/
def jsOrDefault (x : Option Int) (d : Int) : Int :=
  match x with
  | none => d
  | some k => if k = 0 then d else k

/-- The clamp Math.min(Math.max(parseInt(resultLimit) || DEFAULT_SEARCH_LIMIT,
1), 5) of api.js line 98, as a function of the parseInt outcome. -/
def clampLimit (p : Option Int) : Int :=
  min (max (jsOrDefault p DEFAULT_SEARCH_LIMIT) 1) 5

/-- The limit actually used by searchCity: a missing argument defaults to
DEFAULT_SEARCH_LIMIT before parseInt sees it (default parameter of api.js
line 94), then the clamp of line 98 applies. -/
def searchLimit (resultLimit : Option Json) : Int :=
  clampLimit (parseIntJs (resultLimit.getD (.num (DEFAULT_SEARCH_LIMIT : ℚ))))

/-- The filter predicate of searchCity (api.js lines 126-131):
city && city.name && typeof city.lat === "number" &&
typeof city.lon === "number". -/
def validCity (city : Json) : Bool :=
  city.truthy && (city.get "name").truthy &&
    (city.get "lat").isNum && (city.get "lon").isNum

/-- One outbound geocoding request: the cleaned query and the clamped limit
that appear in the q and limit URL parameters. -/
structure GeoRequest where
  q : String
  limit : Int

/-- One run of searchCity: the requests it issued and the array it
returned. -/
structure SearchRun where
  requests : List GeoRequest
  result : List Json

/-- The function searchCity(cityQuery, resultLimit) of api.js lines 94-143
against a fixed network outcome. cleanInput (lines 70-75) throws on a falsy
or non-string input; that throw, a non-ok status, and a body that fails to
parse all land in the catch clause, which returns the empty array, so the
model is total. A body that parses but is not an array returns the empty
array at line 122; an array body is filtered by validCity at lines
126-131. -/
def searchCity (cityQuery : Json) (resultLimit : Option Json)
    (net : FetchOutcome) : SearchRun :=
  if !(cityQuery.truthy && cityQuery.isStr) then
    ⟨[], []⟩
  else
    let req : GeoRequest := ⟨jsTrim cityQuery.strVal, searchLimit resultLimit⟩
    match net with
    | .networkError => ⟨[req], []⟩
    | .response r =>
      if !(respOk r) then ⟨[req], []⟩
      else
        match r.body with
        | none => ⟨[req], []⟩
        | some cityData =>
          match cityData with
          | .arr xs => ⟨[req], xs.filter validCity⟩
          | _ => ⟨[req], []⟩

/-- C1 witness data: a well-formed Paris candidate, as in the spec
end-to-end scenario. -/
def parisCity : Json :=
  .obj [("name", .str "Paris"), ("country", .str "FR"),
        ("lat", .num 48.85), ("lon", .num 2.35)]

/-- C1 witness data: a second well-formed candidate. -/
def goodCity2 : Json :=
  .obj [("name", .str "London"), ("country", .str "GB"),
        ("lat", .num 51.5), ("lon", .num (-0.12))]

/-- C1 witness data: malformed, the name field is missing. -/
def badCityNoName : Json :=
  .obj [("country", .str "XX"), ("lat", .num 1), ("lon", .num 2)]

/-- C1 witness data: malformed, the lat field is not numeric. -/
def badCityStrLat : Json :=
  .obj [("name", .str "Qq"), ("lat", .str "oops"), ("lon", .num 2)]

/-- C1: for a 2xx geocoding response whose body is a list holding N
well-formed entries (per the validity predicate of the source: truthy name,
numeric lat and lon) among arbitrary malformed ones, searchCity returns
exactly those N entries, and the result is a sublist of the body, hence in
the original relative order. -/
theorem searchCity_filters_wellformed (q : String) (lim : Option Json)
    (xs : List Json) (N : Nat) (hq : q ≠ "")
    (hN : xs.countP validCity = N) :
    (searchCity (.str q) lim (.response ⟨200, some (.arr xs)⟩)).result =
      xs.filter validCity ∧
    (searchCity (.str q) lim
      (.response ⟨200, some (.arr xs)⟩)).result.length = N ∧
    (searchCity (.str q) lim
      (.response ⟨200, some (.arr xs)⟩)).result.Sublist xs := by
  have hres : (searchCity (.str q) lim
      (.response ⟨200, some (.arr xs)⟩)).result = xs.filter validCity := by
    simp [searchCity, Json.truthy, Json.isStr, hq, respOk]
  refine ⟨hres, ?_, ?_⟩
  · rw [hres, ← hN, List.countP_eq_length_filter]
  · rw [hres]
    exact List.filter_sublist xs

/-- C1 witness: a concrete response with two well-formed and two malformed
entries returns exactly the two well-formed ones in order. -/
theorem searchCity_filters_wellformed_witness :
    (searchCity (.str "Paris") none
      (.response ⟨200, some
        (.arr [parisCity, badCityNoName, goodCity2, badCityStrLat])⟩)).result =
      [parisCity, badCityNoName, goodCity2, badCityStrLat].filter validCity ∧
    (searchCity (.str "Paris") none
      (.response ⟨200, some
        (.arr [parisCity, badCityNoName, goodCity2,
          badCityStrLat])⟩)).result.length = 2 ∧
    (searchCity (.str "Paris") none
      (.response ⟨200, some
        (.arr [parisCity, badCityNoName, goodCity2,
          badCityStrLat])⟩)).result.Sublist
      [parisCity, badCityNoName, goodCity2, badCityStrLat] :=
  searchCity_filters_wellformed "Paris" none
    [parisCity, badCityNoName, goodCity2, badCityStrLat] 2
    (by decide) (by decide)

/-- One run of weatherByCity: the coordinate pairs of the requests it issued
and the object it returned. -/
structure WeatherRun where
  requests : List (ℚ × ℚ)
  result : Json

/-- The function weatherByCity(cityObject) of api.js lines 160-204 against a
fixed network outcome. A falsy city object or non-numeric lat/lon throws at
line 164; that throw, a non-ok status, and an unparseable body all land in
the catch clause, which returns the empty object. A parsed body that is
falsy or lacks a truthy main or weather field returns the empty object at
line 191; otherwise the parsed body is returned unchanged. -/
def weatherByCity (cityObject : Json) (net : FetchOutcome) : WeatherRun :=
  if !(cityObject.truthy && (cityObject.get "lat").isNum &&
      (cityObject.get "lon").isNum) then
    ⟨[], .obj []⟩
  else
    let req := ((cityObject.get "lat").numVal, (cityObject.get "lon").numVal)
    match net with
    | .networkError => ⟨[req], .obj []⟩
    | .response r =>
      if !(respOk r) then ⟨[req], .obj []⟩
      else
        match r.body with
        | none => ⟨[req], .obj []⟩
        | some weatherData =>
          if !(weatherData.truthy && (weatherData.get "main").truthy &&
              (weatherData.get "weather").truthy) then
            ⟨[req], .obj []⟩
          else ⟨[req], weatherData⟩

/-- The fetch effect of the SearchCity component (SearchCity.jsx, both the
plain useEffect at lines 8-18 and the enhanced one at lines 78-128): a falsy
or whitespace-only cityName resets the candidate list and issues no request;
otherwise searchCity runs on the trimmed name with the default limit and its
result becomes the candidate list. -/
def searchCityEffect (cityName : String) (net : FetchOutcome) : SearchRun :=
  if cityName = "" ∨ jsTrim cityName = "" then ⟨[], []⟩
  else searchCity (.str (jsTrim cityName)) none net

/-- C2: for an input consisting only of whitespace characters (the empty
string included), the search effect issues zero network requests and the
candidate list is empty. -/
theorem whitespace_input_no_fetch (s : String) (net : FetchOutcome)
    (hws : ∀ c ∈ s.toList, c.isWhitespace) :
    (searchCityEffect s net).requests = [] ∧
    (searchCityEffect s net).result = [] := by
  have hdrop : s.toList.dropWhile Char.isWhitespace = [] := by
    rw [List.dropWhile_eq_nil_iff]
    exact hws
  have htrim : jsTrim s = "" := by
    unfold jsTrim
    rw [hdrop]
    rfl
  simp [searchCityEffect, htrim]

/-- C2 witness: three spaces issue no request and give an empty list. -/
theorem whitespace_input_no_fetch_witness :
    (searchCityEffect "   " .networkError).requests = [] ∧
    (searchCityEffect "   " .networkError).result = [] :=
  whitespace_input_no_fetch "   " .networkError (by decide)

/-- C3: a non-2xx status from the geocoding endpoint makes searchCity return
the empty array, and one from the weather endpoint makes weatherByCity
return the empty object; both models are total functions, so no error
escapes either call. -/
theorem non2xx_empty_results (cityQuery : Json) (lim : Option Json)
    (cityObject : Json) (r : FetchResponse) (hbad : respOk r = false) :
    (searchCity cityQuery lim (.response r)).result = [] ∧
    (weatherByCity cityObject (.response r)).result = .obj [] := by
  constructor
  · cases h : (cityQuery.truthy && cityQuery.isStr) <;>
      simp [searchCity, h, hbad]
  · cases h : (cityObject.truthy && (cityObject.get "lat").isNum &&
        (cityObject.get "lon").isNum) <;>
      simp [weatherByCity, h, hbad]

/-- C3 witness: a 404 from either endpoint yields the empty results. -/
theorem non2xx_empty_results_witness :
    (searchCity (.str "Paris") none
      (.response ⟨404, some (.arr [])⟩)).result = [] ∧
    (weatherByCity parisCity (.response ⟨404, some (.arr [])⟩)).result =
      .obj [] :=
  non2xx_empty_results (.str "Paris") none parisCity ⟨404, some (.arr [])⟩
    (by decide)

/-- C4: with a structurally valid city and a 2xx response, a body lacking a
truthy main-metrics field or a truthy condition-list field yields the empty
object rather than an error, while a structurally valid body is returned as
parsed. -/
theorem weather_body_validation (c w : Json)
    (hc : (c.truthy && (c.get "lat").isNum && (c.get "lon").isNum) = true) :
    ((w.get "main").truthy = false ∨ (w.get "weather").truthy = false →
      (weatherByCity c (.response ⟨200, some w⟩)).result = .obj []) ∧
    ((w.truthy && (w.get "main").truthy && (w.get "weather").truthy) = true →
      (weatherByCity c (.response ⟨200, some w⟩)).result = w) := by
  constructor
  · intro hbadbody
    have hflat : (w.truthy && (w.get "main").truthy &&
        (w.get "weather").truthy) = false := by
      rcases hbadbody with h | h <;> simp [h]
    simp [weatherByCity, hc, respOk, hflat]
  · intro hgood
    simp [weatherByCity, hc, respOk, hgood]

/-- C4 witness data: a weather body whose condition-list field is missing. -/
def bodyNoWeather : Json :=
  .obj [("main", .obj [("temp", .num 10)])]

/-- C4 witness data: the structurally valid weather body of the spec
end-to-end scenario. -/
def parisWeather : Json :=
  .obj [("main", .obj [("temp", .num 15.4), ("feels_like", .num 14.1),
          ("humidity", .num 60)]),
        ("wind", .obj [("speed", .num 3.2)]),
        ("weather", .arr [.obj [("description", .str "clear sky"),
          ("main", .str "Clear"), ("icon", .str "01d")]])]

/-- C4 witness: a body missing its condition list gives the empty object,
and the valid Paris body is returned as parsed. -/
theorem weather_body_validation_witness :
    (weatherByCity parisCity
      (.response ⟨200, some bodyNoWeather⟩)).result = .obj [] ∧
    (weatherByCity parisCity (.response ⟨200, some parisWeather⟩)).result =
      parisWeather :=
  ⟨(weather_body_validation parisCity bodyNoWeather (by decide)).1
      (Or.inr (by decide)),
    (weather_body_validation parisCity parisWeather (by decide)).2
      (by decide)⟩

/-- The search state the orchestrator holds (Main.jsx): the text in the
input box (the city state), the committed query (the searchQuery state), the
candidate array held by the SearchCity child (its data state), and the
current selection (the selectedCity state). -/
structure SearchState where
  rawInput : String
  committedQuery : String
  data : List Json
  selection : Option Json

/-- The candidate list the user sees: Main renders the SearchCity child only
while searchQuery is not the empty string (Main.jsx lines 309 and 512), so a
blank committed query shows no candidates. -/
def displayedCandidates (st : SearchState) : List Json :=
  if st.committedQuery = "" then [] else st.data

/-- Submitting the form (Main.jsx handleSubmit, plain variant lines
487-491): commit the typed text as the query and clear the input box. -/
def submitQuery (st : SearchState) : SearchState :=
  { st with committedQuery := st.rawInput, rawInput := "" }

/-- Clicking candidate c (handleOnClick of SearchCity.jsx lines 20-23
together with the selection handler of Main.jsx lines 143-158): the clicked
candidate becomes the selection and the committed query is blanked, which
unmounts the result list; the enhanced variant also clears its data state
explicitly (SearchCity.jsx line 168). No handler touches the rawInput (city)
state of Main. -/
def clickCandidate (st : SearchState) (c : Json) : SearchState :=
  { st with selection := some c, committedQuery := "", data := [] }

/-- A reachable state showing candidates while text sits in the input box:
the user typed Paris, submitted (clearing the box), got one candidate back,
then typed Lon without submitting. -/
def stateTypedAfterSubmit : SearchState :=
  ⟨"Lon", "Paris", [parisCity], none⟩

/-- C5 counterexample: in a state that shows candidates, clicking one stores
the selection and clears the displayed candidates, but the raw input text is
not cleared, contradicting the claim that selection clears it. -/
theorem clickCandidate_keeps_rawInput :
    displayedCandidates stateTypedAfterSubmit = [parisCity] ∧
    (clickCandidate stateTypedAfterSubmit parisCity).selection =
      some parisCity ∧
    (clickCandidate stateTypedAfterSubmit parisCity).rawInput = "Lon" ∧
    (clickCandidate stateTypedAfterSubmit parisCity).rawInput ≠ "" := by
  refine ⟨?_, rfl, rfl, ?_⟩
  · simp [displayedCandidates, stateTypedAfterSubmit]
  · decide

/-- C5 amended: clicking a candidate makes it the selection (the selected
state), blanks the committed query and clears the displayed candidate list,
while the raw input text is left unchanged; the input box is cleared on
submit, not on selection. -/
theorem clickCandidate_spec (st : SearchState) (c : Json) :
    (clickCandidate st c).selection = some c ∧
    (clickCandidate st c).committedQuery = "" ∧
    displayedCandidates (clickCandidate st c) = [] ∧
    (clickCandidate st c).rawInput = st.rawInput ∧
    (submitQuery st).rawInput = "" := by
  refine ⟨rfl, rfl, ?_, rfl, rfl⟩
  simp [displayedCandidates, clickCandidate]

/-- The theme choice of the presenter, detectTheme of the premium
CallWeather (lines 157-159) and the equivalent inline conditional of
CallWeather.jsx lines 38-40: an icon code containing the substring n gives
night, anything else gives day. A missing icon reaches the check as a falsy
undefined through optional chaining, giving day; a non-string non-null icon
would throw in JS and is outside the claims, which quantify over icon
codes. -/
def detectTheme (iconCode : Json) : String :=
  match iconCode with
  | .str s => if jsIncludes s "n" then "night" else "day"
  | _ => "day"

/-- The icon position the theme check reads: weather[0].icon with optional
chaining. -/
def iconOf (w : Json) : Json := ((w.get "weather").idx 0).get "icon"

/-- Theme the presenter selects for weather data w. -/
def themeOf (w : Json) : String := detectTheme (iconOf w)

/-- C6: a weather response whose icon code contains the substring n selects
the night theme, and one whose icon code does not contain n selects the day
theme. -/
theorem icon_selects_theme (w : Json) (s : String) (h : iconOf w = .str s) :
    (jsIncludes s "n" = true → themeOf w = "night") ∧
    (jsIncludes s "n" = false → themeOf w = "day") := by
  constructor <;> intro hn <;> simp [themeOf, detectTheme, h, hn]

/-- C6 witness data: a weather response carrying the night icon 01n. -/
def nightWeather : Json :=
  .obj [("main", .obj [("temp", .num 7)]),
        ("weather", .arr [.obj [("icon", .str "01n")]])]

/-- C6 witness: the icon 01n contains n and selects the night theme. -/
theorem icon_selects_theme_witness :
    jsIncludes "01n" "n" = true ∧ themeOf nightWeather = "night" :=
  ⟨by decide,
    (icon_selects_theme nightWeather "01n" rfl).1 (by decide)⟩

/-- The function Math.round as JS defines it: floor of x + 1/2 (round half
toward positive infinity). -/
def mathRound (q : ℚ) : Int := ⌊q + 1 / 2⌋

/-- The helper formatTemperature of the premium CallWeather (lines 132-134):
Math.round on the raw temperature. -/
def formatTemperature (t : ℚ) : Int := mathRound t

/-- The per-word step of formatWeatherDescription:
word.charAt(0).toUpperCase() + word.slice(1). -/
def capitalizeWord (w : String) : String :=
  match w.toList with
  | [] => ""
  | c :: cs => String.mk (c.toUpper :: cs)

/-- Splitting on each single space character, empty pieces kept: the JS
behaviour of calling split with a one-space separator. -/
def splitSpacesAux : List Char → List Char → List String
  | [], acc => [String.mk acc.reverse]
  | c :: cs, acc =>
    if c = ' ' then String.mk acc.reverse :: splitSpacesAux cs []
    else splitSpacesAux cs (c :: acc)

/-- The JS expression d.split(" "). -/
def jsSplitOnSpace (d : String) : List String := splitSpacesAux d.toList []

/-- The helper formatWeatherDescription of the premium CallWeather (lines
143-148): split on spaces, capitalize each word, rejoin with spaces. -/
def formatWeatherDescription (d : String) : String :=
  String.intercalate " " ((jsSplitOnSpace d).map capitalizeWord)

/-- The temperature string the premium presenter renders (line 316):
the formatted temperature followed by the degree sign. Defined on bodies
whose temp field is numeric, the only shape the claims exercise. -/
def renderedTemperature (w : Json) : Option String :=
  match (w.get "main").get "temp" with
  | .num t => some (toString (formatTemperature t) ++ "°")
  | _ => none

/-- The description string the premium presenter renders (line 327). -/
def renderedDescription (w : Json) : Option String :=
  match ((w.get "weather").idx 0).get "description" with
  | .str d => some (formatWeatherDescription d)
  | _ => none

/-- The humidity string the premium presenter renders (line 352): the number
followed by a percent sign. The API supplies an integer percentage, the only
shape the claims exercise, so the integral numeral is rendered. -/
def renderedHumidity (w : Json) : Option String :=
  match (w.get "main").get "humidity" with
  | .num h => if h.den = 1 then some (toString h.num ++ "%") else none
  | _ => none

/-- A state showing the single Paris candidate, as after searching Paris. -/
def parisResultsState : SearchState := ⟨"", "Paris", [parisCity], none⟩

/-- C7: the Paris end-to-end scenario. Selecting the Paris candidate makes
it the selection; the weather fetch for it carries lat 48.85 and lon 2.35;
the response body passes validation and is returned as parsed; and the
presenter renders temperature 15 degrees, description Clear Sky, humidity
60 percent, and the day theme. -/
theorem paris_end_to_end :
    (clickCandidate parisResultsState parisCity).selection = some parisCity ∧
    (weatherByCity parisCity (.response ⟨200, some parisWeather⟩)).requests =
      [((48.85 : ℚ), (2.35 : ℚ))] ∧
    (weatherByCity parisCity (.response ⟨200, some parisWeather⟩)).result =
      parisWeather ∧
    renderedTemperature parisWeather = some "15°" ∧
    renderedDescription parisWeather = some "Clear Sky" ∧
    renderedHumidity parisWeather = some "60%" ∧
    themeOf parisWeather = "day" := by
  have ht : formatTemperature 15.4 = 15 := by
    norm_num [formatTemperature, mathRound]
  have htemp : renderedTemperature parisWeather = some "15°" := by
    show some (toString (formatTemperature 15.4) ++ "°") = some "15°"
    rw [ht]
    rfl
  have hdesc : renderedDescription parisWeather = some "Clear Sky" := by
    show some (formatWeatherDescription "clear sky") = some "Clear Sky"
    rfl
  exact ⟨rfl, rfl, rfl, htemp, hdesc, rfl, rfl⟩

/-- Helper for C8: whatever parseInt produced, the default and the clamp of
api.js line 98 land the limit in [1,5]. -/
theorem clampLimit_mem (p : Option Int) :
    1 ≤ clampLimit p ∧ clampLimit p ≤ 5 := by
  rcases p with _ | k
  · simp only [clampLimit, jsOrDefault, DEFAULT_SEARCH_LIMIT]
    omega
  · simp only [clampLimit, jsOrDefault, DEFAULT_SEARCH_LIMIT]
    split
    · omega
    · omega

/-- C8: for every possible result-limit argument the limit used in the
outbound request lies in [1,5]; an absent argument uses 5; and the issued
request carries exactly this limit. -/
theorem searchLimit_clamped (resultLimit : Option Json) :
    (1 ≤ searchLimit resultLimit ∧ searchLimit resultLimit ≤ 5) ∧
    searchLimit none = 5 ∧
    (searchCity (.str "Paris") resultLimit .networkError).requests =
      [⟨"Paris", searchLimit resultLimit⟩] := by
  refine ⟨clampLimit_mem _, by decide, ?_⟩
  rfl

/-- What the premium CallWeather renders: the loading skeleton, the
user-visible error box (an alert with a retry button, lines 265-280), the
empty placeholder (an empty paragraph, no error, lines 283-289), or the
weather box. -/
inductive CWView where
  | loadingSkeleton
  | errorBox (msg : String)
  | emptyBox
  | weatherBox (theme : String) (w : Json)

/-- The render dispatch of the premium CallWeather (lines 247-296): loading
first, then a present error, then the empty placeholder for a falsy body or
falsy main-metrics field, else the weather box. -/
def callWeatherView (loading : Bool) (error : Option String) (theme : String)
    (weatherData : Json) : CWView :=
  if loading then .loadingSkeleton
  else
    match error with
    | some m => .errorBox m
    | none =>
      if !(weatherData.truthy && (weatherData.get "main").truthy) then
        .emptyBox
      else .weatherBox theme weatherData

/-- The error message the premium CallWeather shows when a fetch fails
(line 225). -/
def weatherErrorMsg : String := "Unable to load weather data. Please try again."

/-- One settled pass of the premium CallWeather from its initial state
(lines 101-119: no data, not loading, no error, day theme): the effect of
lines 189-240 runs to completion against a fixed network outcome and the
resulting state is rendered. A missing selection, or one with falsy
coordinates, resets the data and skips the fetch; a fetched response lacking
a truthy main-metrics field raises the error state; otherwise the data and
theme are stored. -/
def runCallWeather (selectedCity : Option Json) (net : FetchOutcome) :
    CWView :=
  match selectedCity with
  | none => callWeatherView false none "day" (.obj [])
  | some c =>
    if !((c.get "lat").truthy && (c.get "lon").truthy) then
      callWeatherView false none "day" (.obj [])
    else
      let resp := (weatherByCity c net).result
      if !(resp.truthy && (resp.get "main").truthy) then
        callWeatherView false (some weatherErrorMsg) "day" (.obj [])
      else
        callWeatherView false none (themeOf resp) resp

/-- A failed weather fetch, covering the whole failure taxonomy the clients
see from the network: transport failure (the fetch promise rejects) or a
non-2xx status. -/
def fetchFailed (net : FetchOutcome) : Prop :=
  net = .networkError ∨ ∃ r, net = .response r ∧ respOk r = false

/-- C9: with no selection the presenter renders the empty placeholder and
not an error, whatever the network would have done; with a selected city
whose weather fetch fails, whether by transport failure or by a non-2xx
status, it renders the user-visible error message. -/
theorem callWeather_empty_and_error (net failNet : FetchOutcome) (c : Json)
    (hc : ((c.get "lat").truthy && (c.get "lon").truthy) = true)
    (hfail : fetchFailed failNet) :
    runCallWeather none net = .emptyBox ∧
    runCallWeather (some c) failNet = .errorBox weatherErrorMsg := by
  refine ⟨rfl, ?_⟩
  have hres : (weatherByCity c failNet).result = .obj [] := by
    rcases hfail with h | ⟨r, hr, hbad⟩
    · subst h
      cases h : (c.truthy && (c.get "lat").isNum && (c.get "lon").isNum) <;>
        simp [weatherByCity, h]
    · subst hr
      cases h : (c.truthy && (c.get "lat").isNum && (c.get "lon").isNum) <;>
        simp [weatherByCity, h, hbad]
  rw [Bool.and_eq_true] at hc
  simp only [runCallWeather, hc.1, hc.2, hres, Bool.and_self, Bool.not_true,
    Bool.false_eq_true, if_false]
  rfl

/-- C9 witness: no selection renders the placeholder; a Paris selection
whose fetch dies in transport renders the error message, and so does one
answered with a 500. -/
theorem callWeather_empty_and_error_witness :
    (runCallWeather none .networkError = .emptyBox ∧
      runCallWeather (some parisCity) .networkError =
        .errorBox weatherErrorMsg) ∧
    runCallWeather (some parisCity) (.response ⟨500, none⟩) =
      .errorBox weatherErrorMsg :=
  have hc : ((parisCity.get "lat").truthy &&
      (parisCity.get "lon").truthy) = true := by
    have hlat : parisCity.get "lat" = Json.num (48.85 : ℚ) := rfl
    have hlon : parisCity.get "lon" = Json.num (2.35 : ℚ) := rfl
    rw [hlat, hlon]
    simp only [Json.truthy, bne_iff_ne, Bool.and_eq_true, decide_eq_true_eq]
    norm_num
  ⟨callWeather_empty_and_error .networkError .networkError parisCity hc
      (Or.inl rfl),
    (callWeather_empty_and_error .networkError (.response ⟨500, none⟩)
      parisCity hc (Or.inr ⟨⟨500, none⟩, rfl, by decide⟩)).2⟩

/-- Helper for C10: every branch of searchCity returns a filter by
validCity (the empty branches vacuously, as filters of the empty list). -/
theorem searchCity_result_eq_filter (cityQuery : Json) (lim : Option Json)
    (net : FetchOutcome) :
    ∃ xs : List Json,
      (searchCity cityQuery lim net).result = List.filter validCity xs := by
  unfold searchCity
  rcases hq : (cityQuery.truthy && cityQuery.isStr) with _ | _
  · exact ⟨[], rfl⟩
  · cases net with
    | networkError => exact ⟨[], rfl⟩
    | response r =>
      dsimp only
      rcases hok : respOk r with _ | _
      · exact ⟨[], rfl⟩
      · rcases hb : r.body with _ | body
        · exact ⟨[], rfl⟩
        · cases body with
          | arr xs => exact ⟨xs, rfl⟩
          | undefined => exact ⟨[], rfl⟩
          | null => exact ⟨[], rfl⟩
          | bool b => exact ⟨[], rfl⟩
          | num q => exact ⟨[], rfl⟩
          | str s => exact ⟨[], rfl⟩
          | obj fields => exact ⟨[], rfl⟩

/-- The method Number.prototype.toFixed throws a TypeError exactly when its
receiver is not a number; the digit counts the result presenter uses (2 and
4) are inside the legal range, so no RangeError arises. -/
def toFixedThrows (j : Json) : Bool := !j.isNum

/-- C10: every element searchCity returns has a truthy name and numeric lat
and lon fields, so the toFixed calls of the result presenter on lat and lon
cannot throw. -/
theorem searchCity_result_invariant (cityQuery : Json) (lim : Option Json)
    (net : FetchOutcome) (e : Json)
    (he : e ∈ (searchCity cityQuery lim net).result) :
    (e.get "name").truthy = true ∧ (e.get "lat").isNum = true ∧
    (e.get "lon").isNum = true ∧ toFixedThrows (e.get "lat") = false ∧
    toFixedThrows (e.get "lon") = false := by
  obtain ⟨xs, hxs⟩ := searchCity_result_eq_filter cityQuery lim net
  rw [hxs] at he
  have hv : validCity e = true := (List.mem_filter.mp he).2
  simp only [validCity, Bool.and_eq_true] at hv
  refine ⟨hv.1.1.2, hv.1.2, hv.2, ?_, ?_⟩ <;>
    simp [toFixedThrows, hv.1.2, hv.2]

/-- C10 witness: the Paris entry of a concrete successful run has a truthy
name, numeric coordinates, and throw-free toFixed calls. -/
theorem searchCity_result_invariant_witness :
    (parisCity.get "name").truthy = true ∧
    (parisCity.get "lat").isNum = true ∧
    (parisCity.get "lon").isNum = true ∧
    toFixedThrows (parisCity.get "lat") = false ∧
    toFixedThrows (parisCity.get "lon") = false :=
  searchCity_result_invariant (.str "Paris") none
    (.response ⟨200, some (.arr [parisCity, badCityNoName])⟩) parisCity
    (show parisCity ∈ [parisCity] from List.mem_singleton.mpr rfl)

end MyWeather
